import Mathlib

/-!
Verification of the copy/clipboard state machine (`IrisGridCopyHandler`) and
the pluggable key-handling contract (`KeyHandler`) of the web-client-ui grid
packages.

The handler is a React class component; we embed it as explicit
state-passing functions.  Each method of the component becomes a Lean
function `HandlerState → HandlerState × List Effect`, where `Effect` records
the externally visible actions (starting/cancelling a fetch, starting or
cancelling the hide timer, writing to the clipboard).  Asynchronous code is
split at its `await` points: `startFetchSync` is the synchronous prefix of
`startFetch` (up to the `await this.fetchPromise`), and `resolveFetch` is
its continuation, parameterised by the environment's outcome for the fetch
and the clipboard write.

External collaborators (the grid coordinate utilities, the data model and
the clipboard) are not part of the sources under verification; they are
abstracted as a `Collaborators` record of functions.
-/

namespace WebClientUI

/-- A column move operation (`MoveOperation` from the grid package, external
to the verified sources).  Its contents are never inspected by the copy
handler; an opaque pair suffices. -/
def MoveOperation := Int × Int
deriving DecidableEq, Repr

/-- Per-column user width overrides (`ModelSizeMap`, external): association
list from model column index to width. -/
def ModelSizeMap := List (Int × Int)
deriving DecidableEq, Repr

/-- Modelled from the spec: `GridRange` from the grid package (not under the
verified sources).  The copy handler only passes ranges through the external
coordinate utilities and computes their total row count; only row bounds are
needed here. -/
structure GridRange where
  startRow : Int
  endRow : Int
deriving DecidableEq, Repr

/-- Modelled from the spec: `rowCount(ranges) -> integer`, the total row
count across all ranges (`GridRange.rowCount` from the grid package, not
under the verified sources). -/
def GridRange.rowCount (ranges : List GridRange) : Int :=
  (ranges.map (fun r => r.endRow - r.startRow + 1)).sum

/-- A `CopyOperation` value.  The TypeScript type is a union of
`CopyRangesOperation` and `CopyHeaderOperation`, discriminated at runtime by
field presence (`ranges != null` / `columnIndex != null`), so we model it as
one record with optional variant fields, mirroring the runtime structure. -/
structure CopyOperation where
  movedColumns : List MoveOperation
  error : Option String
  ranges : Option (List GridRange)
  includeHeaders : Bool
  formatValues : Option Bool
  userColumnWidths : ModelSizeMap
  columnIndex : Option Int
  columnDepth : Int
deriving DecidableEq, Repr

/-- `isCopyRangesOperation`: the Ranges-variant discriminator, testing the
`ranges` field. -/
def isCopyRangesOperation (copyOperation : CopyOperation) : Bool :=
  copyOperation.ranges.isSome

/-- `isCopyHeaderOperation`: the Header-variant discriminator, testing the
`columnIndex` field. -/
def isCopyHeaderOperation (copyOperation : CopyOperation) : Bool :=
  copyOperation.columnIndex.isSome

/-- `IrisGridCopyHandler.COPY_STATES`. -/
inductive CopyState where
  | IDLE
  | CONFIRMATION_REQUIRED
  | FETCH_RANGES_IN_PROGRESS
  | FETCH_HEADER_IN_PROGRESS
  | FETCH_ERROR
  | CLICK_REQUIRED
  | DONE
deriving DecidableEq, Repr

/-- `IrisGridCopyHandler.BUTTON_STATES`. -/
inductive ButtonState where
  | COPY
  | FETCH_IN_PROGRESS
  | CLICK_TO_COPY
  | RETRY
deriving DecidableEq, Repr

/-- `IrisGridCopyHandler.NO_PROMPT_THRESHOLD`. -/
def NO_PROMPT_THRESHOLD : Int := 10000

/-- `IrisGridCopyHandler.HIDE_TIMEOUT` (milliseconds). -/
def HIDE_TIMEOUT : Nat := 3000

/-- The pending cancelable fetch (`this.fetchPromise`).  A header fetch
wraps the already-resolved header text; a ranges fetch wraps the model's
`textSnapshot` request with the computed model ranges, header-inclusion flag
and whether formatted values were requested. -/
inductive FetchRequest where
  | header (text : String)
  | rangesReq (modelRanges : List GridRange) (includeHeaders : Bool)
      (formatValues : Bool)
deriving DecidableEq, Repr

/-- Externally visible actions of the handler. -/
inductive Effect where
  | fetchStarted (req : FetchRequest)
  | fetchCanceled
  | timerStarted (ms : Nat)
  | timerCanceled
  | clipboardWrite (text : String)
deriving DecidableEq, Repr

/-- Number of fetches started in an effect list. -/
def countFetchStarts (effs : List Effect) : Nat :=
  (effs.filter fun e =>
    match e with
    | Effect.fetchStarted _ => true
    | _ => false).length

/-- Number of hide timers started in an effect list. -/
def countTimerStarts (effs : List Effect) : Nat :=
  (effs.filter fun e =>
    match e with
    | Effect.timerStarted _ => true
    | _ => false).length

/-- Number of clipboard writes attempted in an effect list. -/
def countClipboardWrites (effs : List Effect) : Nat :=
  (effs.filter fun e =>
    match e with
    | Effect.clipboardWrite _ => true
    | _ => false).length

/-- The full state of one `IrisGridCopyHandler` instance: the React state
(`error`, `copyState`, `buttonState`, `isShown`, `rowCount`) together with
the mutable instance fields (`textData`, `hideTimer`, `fetchPromise`).  The
hide timer is modelled as the remaining delay of the pending timeout. -/
structure HandlerState where
  error : Option String
  copyState : CopyState
  buttonState : ButtonState
  isShown : Bool
  rowCount : Int
  textData : Option String
  hideTimer : Option Nat
  fetchPromise : Option FetchRequest
deriving DecidableEq, Repr

/-- The constructor's initial state. -/
def initialState : HandlerState :=
  { error := none
    copyState := CopyState.IDLE
    buttonState := ButtonState.COPY
    isShown := false
    rowCount := 0
    textData := none
    hideTimer := none
    fetchPromise := none }

/-- External collaborators consumed by the handler: the grid coordinate
utilities (`GridUtils.getModelIndex`, `GridUtils.getModelRanges`,
`IrisGridUtils.getHiddenColumns`, `GridRange.makeColumn`,
`GridRange.subtractRangesFromRanges`) and the data model's
`textForColumnHeader`.  None are part of the verified sources; they are
abstracted as arbitrary functions. -/
structure Collaborators where
  getModelIndex : Int → List MoveOperation → Int
  getModelRanges : List GridRange → List MoveOperation → List GridRange
  getHiddenColumns : ModelSizeMap → List Int
  makeColumn : Int → GridRange
  subtractRangesFromRanges :
    List GridRange → List GridRange → List GridRange
  textForColumnHeader : Int → Int → Option String

/-- Insert a comma after every third character, counting from the start
(intended to run on the reversed digit list). -/
def chunk3 : List Char → List Char
  | a :: b :: c :: d :: rest => a :: b :: c :: ',' :: chunk3 (d :: rest)
  | l => l

/-- Modelled from the spec: JavaScript's `Number.prototype.toLocaleString`
as used by the status messages, i.e. decimal digits grouped in threes by
commas (e.g. 20000 renders as "20,000"). -/
def toLocaleString (n : Int) : String :=
  let ds := Nat.toDigits 10 n.natAbs
  let grouped := (chunk3 ds.reverse).reverse
  (if n < 0 then "-" else "") ++ String.mk grouped

/-- `IrisGridCopyHandler.getStatusMessageText`. -/
def getStatusMessageText (copyState : CopyState) (rowCount : Int) : String :=
  match copyState with
  | CopyState.CONFIRMATION_REQUIRED =>
      "Are you sure you want to copy " ++ toLocaleString rowCount ++
        " rows to your clipboard?"
  | CopyState.CLICK_REQUIRED =>
      "Fetched " ++ toLocaleString rowCount ++ " rows!"
  | CopyState.FETCH_ERROR => "Unable to copy data."
  | CopyState.FETCH_RANGES_IN_PROGRESS =>
      "Fetching " ++ toLocaleString rowCount ++ " rows for clipboard..."
  | CopyState.FETCH_HEADER_IN_PROGRESS => "Fetching header for clipboard..."
  | CopyState.DONE => "Copied to Clipboard!"
  | _ => ""

/-- `IrisGridCopyHandler.getCopyButtonText`. -/
def getCopyButtonText (buttonState : ButtonState) : String :=
  match buttonState with
  | ButtonState.FETCH_IN_PROGRESS => "Fetching"
  | ButtonState.CLICK_TO_COPY => "Click to Copy"
  | ButtonState.RETRY => "Retry"
  | _ => "Copy"

/-- The status message displayed by `render`:
`error ?? getStatusMessageText(copyState, rowCount)`. -/
def statusMessage (s : HandlerState) : String :=
  s.error.getD (getStatusMessageText s.copyState s.rowCount)

/-- `stopFetch`: cancel the in-flight fetch, if any. -/
def stopFetch (s : HandlerState) : HandlerState × List Effect :=
  match s.fetchPromise with
  | some _ => ({ s with fetchPromise := none }, [Effect.fetchCanceled])
  | none => (s, [])

/-- `stopHideTimer`: cancel the pending hide timer, if any. -/
def stopHideTimer (s : HandlerState) : HandlerState × List Effect :=
  match s.hideTimer with
  | some _ => ({ s with hideTimer := none }, [Effect.timerCanceled])
  | none => (s, [])

/-- `stopCopy`: clear the cached text, cancel the fetch, cancel the
timer. -/
def stopCopy (s : HandlerState) : HandlerState × List Effect :=
  let a := stopFetch { s with textData := none }
  let b := stopHideTimer a.1
  (b.1, a.2 ++ b.2)

/-- `startHideTimer`: cancel any pending hide timer, then schedule a new one
with delay `HIDE_TIMEOUT`. -/
def startHideTimer (s : HandlerState) : HandlerState × List Effect :=
  let a := stopHideTimer s
  ({ a.1 with hideTimer := some HIDE_TIMEOUT },
    a.2 ++ [Effect.timerStarted HIDE_TIMEOUT])

/-- `showCopyDone`: enter `DONE` and start the auto-hide timer. -/
def showCopyDone (s : HandlerState) : HandlerState × List Effect :=
  startHideTimer { s with copyState := CopyState.DONE }

/-- `handleHideTimeout`: the hide timer fired; clear it and hide the UI. -/
def handleHideTimeout (s : HandlerState) : HandlerState × List Effect :=
  let a := stopHideTimer s
  ({ a.1 with isShown := false }, a.2)

/-- `handleBackgroundClick`: dismiss the UI only when already `DONE`. -/
def handleBackgroundClick (s : HandlerState) : HandlerState :=
  if s.copyState = CopyState.DONE then { s with isShown := false } else s

/-- `handleCancelClick`: abort any in-flight fetch and hide the UI. -/
def handleCancelClick (s : HandlerState) : HandlerState × List Effect :=
  let a := stopFetch s
  ({ a.1 with isShown := false }, a.2)

/-- The synchronous prefix of `startFetch`, up to the
`await this.fetchPromise`: cancel the previous fetch, set the in-progress
states, and either fail immediately (invalid header) or record the new
pending fetch. -/
def startFetchSync (ctx : Collaborators) (copyOperation : CopyOperation)
    (s : HandlerState) : HandlerState × List Effect :=
  let a := stopFetch s
  if isCopyHeaderOperation copyOperation then
    let s1 := { a.1 with
      buttonState := ButtonState.FETCH_IN_PROGRESS
      copyState := CopyState.FETCH_HEADER_IN_PROGRESS }
    let modelIndex := ctx.getModelIndex (copyOperation.columnIndex.getD 0)
      copyOperation.movedColumns
    match ctx.textForColumnHeader modelIndex copyOperation.columnDepth with
    | none =>
        ({ s1 with
            fetchPromise := none
            error := some "Invalid column header selected."
            copyState := CopyState.DONE }, a.2)
    | some t =>
        let req := FetchRequest.header t
        ({ s1 with fetchPromise := some req },
          a.2 ++ [Effect.fetchStarted req])
  else
    let s1 := { a.1 with
      buttonState := ButtonState.FETCH_IN_PROGRESS
      copyState := CopyState.FETCH_RANGES_IN_PROGRESS }
    let rs := copyOperation.ranges.getD []
    let hiddenColumns := ctx.getHiddenColumns copyOperation.userColumnWidths
    let modelRanges0 := ctx.getModelRanges rs copyOperation.movedColumns
    let modelRanges :=
      if hiddenColumns.length > 0 then
        ctx.subtractRangesFromRanges modelRanges0
          (hiddenColumns.map ctx.makeColumn)
      else modelRanges0
    let req := FetchRequest.rangesReq modelRanges copyOperation.includeHeaders
      (copyOperation.formatValues.getD false)
    ({ s1 with fetchPromise := some req },
      a.2 ++ [Effect.fetchStarted req])

/-- The environment's outcome for awaiting the pending fetch. -/
inductive FetchOutcome where
  | success (text : String)
  | canceled
  | failure
deriving DecidableEq, Repr

/-- The environment's outcome for a clipboard write attempt. -/
inductive ClipOutcome where
  | success
  | failure
deriving DecidableEq, Repr

/-- The continuation of `startFetch` after `await this.fetchPromise`:
on cancellation do nothing; on rejection enter `FETCH_ERROR` with the retry
button; on success cache the text and attempt the clipboard write, entering
`DONE` (with the auto-hide timer) on success or `CLICK_REQUIRED` on
failure.  (`copyText` caches the text before awaiting the clipboard, so it
stays cached even when the write fails.) -/
def resolveFetch (fetchOutcome : FetchOutcome) (clip : ClipOutcome)
    (s : HandlerState) : HandlerState × List Effect :=
  match fetchOutcome with
  | FetchOutcome.canceled => (s, [])
  | FetchOutcome.failure =>
      ({ s with
          fetchPromise := none
          buttonState := ButtonState.RETRY
          copyState := CopyState.FETCH_ERROR }, [])
  | FetchOutcome.success t =>
      let s1 := { s with fetchPromise := none, textData := some t }
      match clip with
      | ClipOutcome.success =>
          let b := showCopyDone s1
          (b.1, Effect.clipboardWrite t :: b.2)
      | ClipOutcome.failure =>
          ({ s1 with
              buttonState := ButtonState.CLICK_TO_COPY
              copyState := CopyState.CLICK_REQUIRED },
            [Effect.clipboardWrite t])

/-- `handleCopyClick`: if text is cached, attempt the clipboard write again
(entering `DONE` + auto-hide on success, surfacing a permissions error
without touching the copy or button state on failure); otherwise (re)start
the fetch. -/
def handleCopyClick (ctx : Collaborators) (copyOperation : CopyOperation)
    (clip : ClipOutcome) (s : HandlerState) : HandlerState × List Effect :=
  match s.textData with
  | some t =>
      match clip with
      | ClipOutcome.success =>
          let b := showCopyDone { s with textData := some t }
          (b.1, Effect.clipboardWrite t :: b.2)
      | ClipOutcome.failure =>
          ({ s with
              textData := some t
              error := some "Unable to copy. Verify your browser permissions." },
            [Effect.clipboardWrite t])
  | none => startFetchSync ctx copyOperation s

/-- The synchronous part of `startCopy` for a supplied operation (including
the synchronous prefix of the fetch it may start): tear down the previous
cycle, then dispatch on null operation / preset error / Ranges threshold /
fetch. -/
def startCopySync (ctx : Collaborators)
    (copyOperation : Option CopyOperation) (s : HandlerState) :
    HandlerState × List Effect :=
  let a := stopCopy s
  match copyOperation with
  | none => ({ a.1 with isShown := false }, a.2)
  | some op =>
      match op.error with
      | some err =>
          let s1 := { a.1 with
            isShown := true
            copyState := CopyState.DONE
            error := some err }
          let b := startHideTimer s1
          (b.1, a.2 ++ b.2)
      | none =>
          let s1 := { a.1 with isShown := true, error := none }
          if isCopyRangesOperation op then
            let rc := GridRange.rowCount (op.ranges.getD [])
            let s2 := { s1 with rowCount := rc }
            if rc > NO_PROMPT_THRESHOLD then
              ({ s2 with
                  buttonState := ButtonState.COPY
                  copyState := CopyState.CONFIRMATION_REQUIRED }, a.2)
            else
              let b := startFetchSync ctx op s2
              (b.1, a.2 ++ b.2)
          else
            let b := startFetchSync ctx op s1
            (b.1, a.2 ++ b.2)

/-- `GridKeyboardEvent` (native or React synthetic keyboard event): the base
`KeyHandler` never inspects it; a carrier for the key name suffices. -/
structure GridKeyboardEvent where
  key : String
deriving DecidableEq, Repr

/-- The grid component an event is dispatched on, opaque to the base
`KeyHandler`. -/
structure Grid where
  id : Nat
deriving DecidableEq, Repr

/-- `KeyHandler` from the grid package: an order plus the base `onDown`. -/
structure KeyHandler where
  order : Int
deriving DecidableEq, Repr

/-- `new KeyHandler()` with the order argument omitted: the constructor's
default applies. -/
def KeyHandler.mkDefault : KeyHandler := ⟨5000⟩

/-- `new KeyHandler(order)`. -/
def KeyHandler.mkWith (order : Int) : KeyHandler := ⟨order⟩

/-- The base `KeyHandler.onDown`: never consumes the event. -/
def KeyHandler.onDown (_k : KeyHandler) (_event : GridKeyboardEvent)
    (_grid : Grid) : Bool :=
  false

/-! Concrete fixtures used to instantiate the theorems below. -/

/-- A concrete set of collaborators whose header lookup always succeeds. -/
def sampleCtx : Collaborators :=
  { getModelIndex := fun i _ => i
    getModelRanges := fun rs _ => rs
    getHiddenColumns := fun _ => []
    makeColumn := fun i => ⟨i, i⟩
    subtractRangesFromRanges := fun a _ => a
    textForColumnHeader := fun _ _ => some "Column A" }

/-- Collaborators whose model has no text for any header position. -/
def noHeaderCtx : Collaborators :=
  { getModelIndex := fun i _ => i
    getModelRanges := fun rs _ => rs
    getHiddenColumns := fun _ => []
    makeColumn := fun i => ⟨i, i⟩
    subtractRangesFromRanges := fun a _ => a
    textForColumnHeader := fun _ _ => none }

/-- A 5-row selection. -/
def smallRanges : List GridRange := [⟨0, 4⟩]

/-- A 20000-row selection, above the confirmation threshold. -/
def hugeRanges : List GridRange := [⟨0, 19999⟩]

/-- A Ranges operation over `smallRanges`. -/
def smallRangesOp : CopyOperation :=
  { movedColumns := []
    error := none
    ranges := some smallRanges
    includeHeaders := true
    formatValues := none
    userColumnWidths := []
    columnIndex := none
    columnDepth := 0 }

/-- A Header operation for visible column 2, depth 0. -/
def headerOp : CopyOperation :=
  { movedColumns := []
    error := none
    ranges := none
    includeHeaders := false
    formatValues := none
    userColumnWidths := []
    columnIndex := some 2
    columnDepth := 0 }

/-- An operation carrying both a non-null `ranges` and a non-null
`columnIndex`. -/
def bothOp : CopyOperation :=
  { smallRangesOp with columnIndex := some 2 }

/-- A Header operation with a caller-supplied preset error. -/
def presetErrorOp : CopyOperation :=
  { headerOp with error := some "Too many columns selected" }

/-- A handler state with cached fetched text awaiting a manual click. -/
def cachedState : HandlerState :=
  { initialState with
      textData := some "cell text"
      copyState := CopyState.CLICK_REQUIRED
      buttonState := ButtonState.CLICK_TO_COPY
      isShown := true
      rowCount := 5 }

/-- A handler state with a ranges fetch in flight. -/
def fetchingState : HandlerState :=
  { initialState with
      copyState := CopyState.FETCH_RANGES_IN_PROGRESS
      buttonState := ButtonState.FETCH_IN_PROGRESS
      isShown := true
      rowCount := 5
      fetchPromise := some (FetchRequest.rangesReq smallRanges true false) }

/-- A handler state with both a fetch and a hide timer outstanding and text
cached, exercising every teardown path of `stopCopy`. -/
def busyState : HandlerState :=
  { initialState with
      textData := some "stale"
      hideTimer := some HIDE_TIMEOUT
      fetchPromise := some (FetchRequest.header "h") }

/-! Helper lemmas about the teardown operations and effect counts. -/

theorem countFetchStarts_append (l1 l2 : List Effect) :
    countFetchStarts (l1 ++ l2) = countFetchStarts l1 + countFetchStarts l2 := by
  simp [countFetchStarts]

theorem countTimerStarts_append (l1 l2 : List Effect) :
    countTimerStarts (l1 ++ l2) = countTimerStarts l1 + countTimerStarts l2 := by
  simp [countTimerStarts]

theorem stopFetch_spec (s : HandlerState) :
    (stopFetch s).1.fetchPromise = none ∧
    countFetchStarts (stopFetch s).2 = 0 ∧
    countTimerStarts (stopFetch s).2 = 0 ∧
    (s.fetchPromise.isSome = true →
      Effect.fetchCanceled ∈ (stopFetch s).2) := by
  obtain ⟨e, cs, bs, sh, rc, td, htm, fp⟩ := s
  cases fp <;> simp [stopFetch, countFetchStarts, countTimerStarts]

theorem stopHideTimer_spec (s : HandlerState) :
    (stopHideTimer s).1.hideTimer = none ∧
    countFetchStarts (stopHideTimer s).2 = 0 ∧
    countTimerStarts (stopHideTimer s).2 = 0 ∧
    (s.hideTimer.isSome = true →
      Effect.timerCanceled ∈ (stopHideTimer s).2) := by
  obtain ⟨e, cs, bs, sh, rc, td, htm, fp⟩ := s
  cases htm <;> simp [stopHideTimer, countFetchStarts, countTimerStarts]

theorem stopCopy_spec (s : HandlerState) :
    (stopCopy s).1.fetchPromise = none ∧
    (stopCopy s).1.hideTimer = none ∧
    (stopCopy s).1.textData = none ∧
    countFetchStarts (stopCopy s).2 = 0 ∧
    countTimerStarts (stopCopy s).2 = 0 ∧
    (s.fetchPromise.isSome = true →
      Effect.fetchCanceled ∈ (stopCopy s).2) ∧
    (s.hideTimer.isSome = true →
      Effect.timerCanceled ∈ (stopCopy s).2) := by
  obtain ⟨e, cs, bs, sh, rc, td, htm, fp⟩ := s
  cases fp <;> cases htm <;>
    simp [stopCopy, stopFetch, stopHideTimer, countFetchStarts,
      countTimerStarts]

theorem stopCopy_countFetchStarts (s : HandlerState) :
    countFetchStarts (stopCopy s).2 = 0 :=
  (stopCopy_spec s).2.2.2.1

theorem stopCopy_countTimerStarts (s : HandlerState) :
    countTimerStarts (stopCopy s).2 = 0 :=
  (stopCopy_spec s).2.2.2.2.1

theorem stopCopy_textData (s : HandlerState) :
    (stopCopy s).1.textData = none :=
  (stopCopy_spec s).2.2.1

theorem startHideTimer_spec (s : HandlerState) :
    (startHideTimer s).2.take (stopHideTimer s).2.length =
      (stopHideTimer s).2 ∧
    countTimerStarts (startHideTimer s).2 = 1 ∧
    countFetchStarts (startHideTimer s).2 = 0 ∧
    (startHideTimer s).1.hideTimer = some HIDE_TIMEOUT ∧
    (startHideTimer s).1.textData = s.textData := by
  obtain ⟨e, cs, bs, sh, rc, td, htm, fp⟩ := s
  cases htm <;>
    simp [startHideTimer, stopHideTimer, countFetchStarts, countTimerStarts]

theorem startFetchSync_spec (ctx : Collaborators) (op : CopyOperation)
    (s : HandlerState) :
    (startFetchSync ctx op s).2.take (stopFetch s).2.length =
      (stopFetch s).2 ∧
    countFetchStarts (startFetchSync ctx op s).2 ≤ 1 ∧
    countTimerStarts (startFetchSync ctx op s).2 = 0 ∧
    (startFetchSync ctx op s).1.textData = s.textData := by
  obtain ⟨e, cs, bs, sh, rc, td, htm, fp⟩ := s
  by_cases hH : isCopyHeaderOperation op = true
  · cases hcc : ctx.textForColumnHeader
      (ctx.getModelIndex (op.columnIndex.getD 0) op.movedColumns)
      op.columnDepth <;>
      cases fp <;>
        simp [startFetchSync, stopFetch, hH, hcc, countFetchStarts,
          countTimerStarts]
  · cases fp <;>
      simp [startFetchSync, stopFetch, hH, countFetchStarts,
        countTimerStarts]

theorem startFetchSync_countFetchStarts_le (ctx : Collaborators)
    (op : CopyOperation) (s : HandlerState) :
    countFetchStarts (startFetchSync ctx op s).2 ≤ 1 :=
  (startFetchSync_spec ctx op s).2.1

theorem startFetchSync_countTimerStarts (ctx : Collaborators)
    (op : CopyOperation) (s : HandlerState) :
    countTimerStarts (startFetchSync ctx op s).2 = 0 :=
  (startFetchSync_spec ctx op s).2.2.1

theorem startFetchSync_textData (ctx : Collaborators) (op : CopyOperation)
    (s : HandlerState) :
    (startFetchSync ctx op s).1.textData = s.textData :=
  (startFetchSync_spec ctx op s).2.2.2

theorem startHideTimer_countTimerStarts (s : HandlerState) :
    countTimerStarts (startHideTimer s).2 = 1 :=
  (startHideTimer_spec s).2.1

theorem startHideTimer_textData (s : HandlerState) :
    (startHideTimer s).1.textData = s.textData :=
  (startHideTimer_spec s).2.2.2.2

/-- `startCopy` with a non-null operation: its effect list begins with the
`stopCopy` teardown effects, it starts at most one fetch and at most one
timer, and it leaves the cached text cleared. -/
theorem startCopySync_teardown (ctx : Collaborators) (op : CopyOperation)
    (s : HandlerState) :
    (startCopySync ctx (some op) s).2.take (stopCopy s).2.length =
      (stopCopy s).2 ∧
    countFetchStarts (startCopySync ctx (some op) s).2 ≤ 1 ∧
    countTimerStarts (startCopySync ctx (some op) s).2 ≤ 1 ∧
    (startCopySync ctx (some op) s).1.textData = none := by
  rcases hoe : op.error with _ | err
  · by_cases hR : isCopyRangesOperation op = true
    · by_cases hrc :
        GridRange.rowCount (op.ranges.getD []) > NO_PROMPT_THRESHOLD
      · refine ⟨?_, ?_, ?_, ?_⟩ <;>
          simp [startCopySync, hoe, hR, hrc, stopCopy_countFetchStarts,
            stopCopy_countTimerStarts, stopCopy_textData]
      · refine ⟨?_, ?_, ?_, ?_⟩ <;>
          simp [startCopySync, hoe, hR, hrc, countFetchStarts_append,
            countTimerStarts_append, stopCopy_countFetchStarts,
            stopCopy_countTimerStarts, stopCopy_textData,
            startFetchSync_countFetchStarts_le,
            startFetchSync_countTimerStarts, startFetchSync_textData]
    · refine ⟨?_, ?_, ?_, ?_⟩ <;>
        simp [startCopySync, hoe, hR, countFetchStarts_append,
          countTimerStarts_append, stopCopy_countFetchStarts,
          stopCopy_countTimerStarts, stopCopy_textData,
          startFetchSync_countFetchStarts_le,
          startFetchSync_countTimerStarts, startFetchSync_textData]
  · refine ⟨?_, ?_, ?_, ?_⟩ <;>
      simp [startCopySync, hoe, countFetchStarts_append,
        countTimerStarts_append, stopCopy_countFetchStarts,
        stopCopy_countTimerStarts, stopCopy_textData,
        startHideTimer_countTimerStarts, startHideTimer_textData,
        startHideTimer_spec]

/-- C1: for a Ranges operation without a preset error, `startCopy` stops at
CONFIRMATION_REQUIRED with no fetch issued exactly when the total row count
exceeds `NO_PROMPT_THRESHOLD`, and otherwise proceeds directly to
`FETCH_RANGES_IN_PROGRESS`. -/
theorem claim_C1 (ctx : Collaborators) (s : HandlerState)
    (op : CopyOperation) (rs : List GridRange)
    (hr : op.ranges = some rs) (hc : op.columnIndex = none)
    (he : op.error = none) :
    let r := startCopySync ctx (some op) s
    ((r.1.copyState = CopyState.CONFIRMATION_REQUIRED ∧
        countFetchStarts r.2 = 0 ∧ r.1.fetchPromise = none) ↔
      GridRange.rowCount rs > NO_PROMPT_THRESHOLD) ∧
    (GridRange.rowCount rs ≤ NO_PROMPT_THRESHOLD →
      r.1.copyState = CopyState.FETCH_RANGES_IN_PROGRESS ∧
      r.1.buttonState = ButtonState.FETCH_IN_PROGRESS) := by
  intro r
  obtain ⟨e, cs, bs, sh, rc, td, ht, fp⟩ := s
  by_cases hrc : GridRange.rowCount rs > NO_PROMPT_THRESHOLD <;>
    cases fp <;> cases ht <;>
      simp [r, startCopySync, stopCopy, stopFetch, stopHideTimer,
        startFetchSync, isCopyRangesOperation, isCopyHeaderOperation, hr, hc,
        he, hrc, countFetchStarts, startHideTimer]

/-- Witness for C1 at a concrete 5-row Ranges operation. -/
theorem claim_C1_witness :
    let r := startCopySync sampleCtx (some smallRangesOp) initialState
    ((r.1.copyState = CopyState.CONFIRMATION_REQUIRED ∧
        countFetchStarts r.2 = 0 ∧ r.1.fetchPromise = none) ↔
      GridRange.rowCount smallRanges > NO_PROMPT_THRESHOLD) ∧
    (GridRange.rowCount smallRanges ≤ NO_PROMPT_THRESHOLD →
      r.1.copyState = CopyState.FETCH_RANGES_IN_PROGRESS ∧
      r.1.buttonState = ButtonState.FETCH_IN_PROGRESS) :=
  claim_C1 sampleCtx initialState smallRangesOp smallRanges rfl rfl rfl

/-- C2: after a Ranges fetch succeeds and the automatic clipboard write
fails, the handler reaches CLICK_REQUIRED with button CLICK_TO_COPY and
message "Fetched N rows!" (N the fetched row count), the text stays cached,
and a subsequent manual copy click re-attempts the clipboard write without
starting a new fetch. -/
theorem claim_C2 (ctx : Collaborators) (s : HandlerState)
    (op : CopyOperation) (rs : List GridRange) (t : String)
    (clip : ClipOutcome)
    (hr : op.ranges = some rs) (hc : op.columnIndex = none)
    (he : op.error = none)
    (hsmall : GridRange.rowCount rs ≤ NO_PROMPT_THRESHOLD) :
    let r1 := startCopySync ctx (some op) s
    let r2 := resolveFetch (FetchOutcome.success t) ClipOutcome.failure r1.1
    let r3 := handleCopyClick ctx op clip r2.1
    r2.1.copyState = CopyState.CLICK_REQUIRED ∧
    r2.1.buttonState = ButtonState.CLICK_TO_COPY ∧
    statusMessage r2.1 =
      "Fetched " ++ toLocaleString (GridRange.rowCount rs) ++ " rows!" ∧
    r2.1.textData = some t ∧
    countFetchStarts r3.2 = 0 ∧
    Effect.clipboardWrite t ∈ r3.2 ∧
    r3.1.fetchPromise = none := by
  intro r1 r2 r3
  obtain ⟨e, cs, bs, sh, rc, td, ht, fp⟩ := s
  cases clip <;> cases fp <;> cases ht <;>
    simp [r1, r2, r3, startCopySync, stopCopy, stopFetch, stopHideTimer,
      startFetchSync, isCopyRangesOperation, isCopyHeaderOperation, hr, hc,
      he, hsmall, not_lt_of_le hsmall, resolveFetch, handleCopyClick,
      showCopyDone, startHideTimer, countFetchStarts, statusMessage,
      getStatusMessageText]

/-- Witness for C2 at a concrete 5-row Ranges operation. -/
theorem claim_C2_witness :
    let r1 := startCopySync sampleCtx (some smallRangesOp) initialState
    let r2 := resolveFetch (FetchOutcome.success "a\tb")
      ClipOutcome.failure r1.1
    let r3 := handleCopyClick sampleCtx smallRangesOp ClipOutcome.failure r2.1
    r2.1.copyState = CopyState.CLICK_REQUIRED ∧
    r2.1.buttonState = ButtonState.CLICK_TO_COPY ∧
    statusMessage r2.1 =
      "Fetched " ++ toLocaleString (GridRange.rowCount smallRanges) ++
        " rows!" ∧
    r2.1.textData = some "a\tb" ∧
    countFetchStarts r3.2 = 0 ∧
    Effect.clipboardWrite "a\tb" ∈ r3.2 ∧
    r3.1.fetchPromise = none :=
  claim_C2 sampleCtx initialState smallRangesOp smallRanges "a\tb"
    ClipOutcome.failure rfl rfl rfl (by decide)

/-- C3: a manual copy click with cached text surfaces the permissions error
message on clipboard failure while leaving copyState and buttonState
unchanged, and on success enters DONE and starts the auto-hide timer. -/
theorem claim_C3 (ctx : Collaborators) (op : CopyOperation)
    (s : HandlerState) (t : String) (ht : s.textData = some t) :
    let rf := handleCopyClick ctx op ClipOutcome.failure s
    let ru := handleCopyClick ctx op ClipOutcome.success s
    rf.1.error = some "Unable to copy. Verify your browser permissions." ∧
    statusMessage rf.1 =
      "Unable to copy. Verify your browser permissions." ∧
    rf.1.copyState = s.copyState ∧
    rf.1.buttonState = s.buttonState ∧
    ru.1.copyState = CopyState.DONE ∧
    ru.1.hideTimer = some HIDE_TIMEOUT ∧
    Effect.timerStarted HIDE_TIMEOUT ∈ ru.2 := by
  intro rf ru
  obtain ⟨e, cs, bs, sh, rc, td, htm, fp⟩ := s
  cases htm <;>
    simp_all [rf, ru, handleCopyClick, showCopyDone, startHideTimer,
      stopHideTimer, statusMessage]

/-- Witness for C3 at a concrete cached-text state. -/
theorem claim_C3_witness :
    let rf := handleCopyClick sampleCtx smallRangesOp ClipOutcome.failure
      cachedState
    let ru := handleCopyClick sampleCtx smallRangesOp ClipOutcome.success
      cachedState
    rf.1.error = some "Unable to copy. Verify your browser permissions." ∧
    statusMessage rf.1 =
      "Unable to copy. Verify your browser permissions." ∧
    rf.1.copyState = cachedState.copyState ∧
    rf.1.buttonState = cachedState.buttonState ∧
    ru.1.copyState = CopyState.DONE ∧
    ru.1.hideTimer = some HIDE_TIMEOUT ∧
    Effect.timerStarted HIDE_TIMEOUT ∈ ru.2 :=
  claim_C3 sampleCtx smallRangesOp cachedState "cell text" rfl

/-- C5: a terminated fetch yields FETCH_ERROR (with the retry button and
message "Unable to copy data.") exactly when the rejection is not a
cancellation; a cancelled fetch changes nothing and surfaces no error. -/
theorem claim_C5 (s : HandlerState) (fo : FetchOutcome) (clip : ClipOutcome)
    (hin : s.copyState = CopyState.FETCH_RANGES_IN_PROGRESS ∨
      s.copyState = CopyState.FETCH_HEADER_IN_PROGRESS)
    (he : s.error = none) :
    ((resolveFetch fo clip s).1.copyState = CopyState.FETCH_ERROR ↔
      fo = FetchOutcome.failure) ∧
    (fo = FetchOutcome.failure →
      (resolveFetch fo clip s).1.buttonState = ButtonState.RETRY ∧
      statusMessage (resolveFetch fo clip s).1 = "Unable to copy data.") ∧
    resolveFetch FetchOutcome.canceled clip s = (s, []) := by
  obtain ⟨e, cs, bs, sh, rc, td, htm, fp⟩ := s
  rcases hin with hin | hin <;> subst hin <;> subst he <;>
    cases fo <;> cases clip <;> cases htm <;>
      simp [resolveFetch, showCopyDone, startHideTimer, stopHideTimer,
        statusMessage, getStatusMessageText]

/-- Witness for C5 at a concrete in-flight ranges fetch that rejects. -/
theorem claim_C5_witness :
    ((resolveFetch FetchOutcome.failure ClipOutcome.success
        fetchingState).1.copyState = CopyState.FETCH_ERROR ↔
      FetchOutcome.failure = FetchOutcome.failure) ∧
    (FetchOutcome.failure = FetchOutcome.failure →
      (resolveFetch FetchOutcome.failure ClipOutcome.success
        fetchingState).1.buttonState = ButtonState.RETRY ∧
      statusMessage (resolveFetch FetchOutcome.failure ClipOutcome.success
        fetchingState).1 = "Unable to copy data.") ∧
    resolveFetch FetchOutcome.canceled ClipOutcome.success fetchingState =
      (fetchingState, []) :=
  claim_C5 fetchingState FetchOutcome.failure ClipOutcome.success
    (Or.inl rfl) rfl

/-- C6: a Header operation whose model lookup returns no text makes the
fetch stage set the error "Invalid column header selected.", enter DONE,
record no pending fetch and attempt no clipboard write. -/
theorem claim_C6 (ctx : Collaborators) (op : CopyOperation)
    (s : HandlerState) (ci : Int) (hc : op.columnIndex = some ci)
    (hnone : ctx.textForColumnHeader (ctx.getModelIndex ci op.movedColumns)
      op.columnDepth = none) :
    let r := startFetchSync ctx op s
    r.1.error = some "Invalid column header selected." ∧
    r.1.copyState = CopyState.DONE ∧
    r.1.fetchPromise = none ∧
    countClipboardWrites r.2 = 0 ∧
    countFetchStarts r.2 = 0 := by
  intro r
  obtain ⟨e, cs, bs, sh, rc, td, htm, fp⟩ := s
  cases fp <;>
    simp [r, startFetchSync, stopFetch, isCopyHeaderOperation, hc, hnone,
      countClipboardWrites, countFetchStarts]

/-- Witness for C6 at a concrete Header operation against a model with no
header text. -/
theorem claim_C6_witness :
    let r := startFetchSync noHeaderCtx headerOp initialState
    r.1.error = some "Invalid column header selected." ∧
    r.1.copyState = CopyState.DONE ∧
    r.1.fetchPromise = none ∧
    countClipboardWrites r.2 = 0 ∧
    countFetchStarts r.2 = 0 :=
  claim_C6 noHeaderCtx headerOp initialState 2 rfl rfl

/-- C7: a non-null operation carrying a preset error makes `startCopy` go
directly to DONE showing that error, start the auto-hide timer, and issue no
fetch. -/
theorem claim_C7 (ctx : Collaborators) (op : CopyOperation)
    (s : HandlerState) (err : String) (he : op.error = some err) :
    let r := startCopySync ctx (some op) s
    r.1.isShown = true ∧
    r.1.copyState = CopyState.DONE ∧
    r.1.error = some err ∧
    statusMessage r.1 = err ∧
    r.1.hideTimer = some HIDE_TIMEOUT ∧
    Effect.timerStarted HIDE_TIMEOUT ∈ r.2 ∧
    countFetchStarts r.2 = 0 ∧
    r.1.fetchPromise = none := by
  intro r
  obtain ⟨e, cs, bs, sh, rc, td, htm, fp⟩ := s
  cases fp <;> cases htm <;>
    simp [r, startCopySync, stopCopy, stopFetch, stopHideTimer, he,
      startHideTimer, statusMessage, countFetchStarts]

/-- Witness for C7 at a concrete preset-error operation. -/
theorem claim_C7_witness :
    let r := startCopySync sampleCtx (some presetErrorOp) initialState
    r.1.isShown = true ∧
    r.1.copyState = CopyState.DONE ∧
    r.1.error = some "Too many columns selected" ∧
    statusMessage r.1 = "Too many columns selected" ∧
    r.1.hideTimer = some HIDE_TIMEOUT ∧
    Effect.timerStarted HIDE_TIMEOUT ∈ r.2 ∧
    countFetchStarts r.2 = 0 ∧
    r.1.fetchPromise = none :=
  claim_C7 sampleCtx presetErrorOp initialState "Too many columns selected"
    rfl

/-- C4 counterexample: the invalid-header fetch failure is a transition that
enters DONE yet starts no auto-hide timer, so not every transition entering
DONE starts the 3000ms timer.  Concretely, a Header operation for column 2
against a model with no header text enters DONE with no timer scheduled and
no timer-start effect. -/
theorem claim_C4_counterexample :
    (startCopySync noHeaderCtx (some headerOp) initialState).1.copyState =
      CopyState.DONE ∧
    (startCopySync noHeaderCtx (some headerOp) initialState).1.hideTimer =
      none ∧
    countTimerStarts
      (startCopySync noHeaderCtx (some headerOp) initialState).2 = 0 := by
  decide

/-- C4 (amended): transitions entering DONE through `showCopyDone`
(successful clipboard write) or through a preset-error operation start the
3000ms auto-hide timer; the timer fires at most once — firing clears it and
hides the UI — and stopping it (directly or via a new copy cycle) before it
fires cancels the hide.  The invalid-header failure enters DONE without
starting the timer. -/
theorem claim_C4_amended (ctx : Collaborators) (s : HandlerState)
    (op : CopyOperation) (err : String) (he : op.error = some err) :
    (showCopyDone s).1.copyState = CopyState.DONE ∧
    (showCopyDone s).1.hideTimer = some HIDE_TIMEOUT ∧
    HIDE_TIMEOUT = 3000 ∧
    countTimerStarts (showCopyDone s).2 = 1 ∧
    (startCopySync ctx (some op) s).1.copyState = CopyState.DONE ∧
    (startCopySync ctx (some op) s).1.hideTimer = some HIDE_TIMEOUT ∧
    countTimerStarts (startCopySync ctx (some op) s).2 = 1 ∧
    (handleHideTimeout s).1.hideTimer = none ∧
    (handleHideTimeout s).1.isShown = false ∧
    (stopHideTimer s).1.hideTimer = none ∧
    (stopHideTimer s).1.isShown = s.isShown := by
  obtain ⟨e, cs, bs, sh, rc, td, htm, fp⟩ := s
  cases fp <;> cases htm <;>
    simp [showCopyDone, startHideTimer, stopHideTimer, handleHideTimeout,
      startCopySync, stopCopy, stopFetch, he, countTimerStarts, HIDE_TIMEOUT]

/-- Witness for the amended C4 at a concrete preset-error operation. -/
theorem claim_C4_witness :
    (showCopyDone fetchingState).1.copyState = CopyState.DONE ∧
    (showCopyDone fetchingState).1.hideTimer = some HIDE_TIMEOUT ∧
    HIDE_TIMEOUT = 3000 ∧
    countTimerStarts (showCopyDone fetchingState).2 = 1 ∧
    (startCopySync sampleCtx (some presetErrorOp)
      fetchingState).1.copyState = CopyState.DONE ∧
    (startCopySync sampleCtx (some presetErrorOp)
      fetchingState).1.hideTimer = some HIDE_TIMEOUT ∧
    countTimerStarts
      (startCopySync sampleCtx (some presetErrorOp) fetchingState).2 = 1 ∧
    (handleHideTimeout fetchingState).1.hideTimer = none ∧
    (handleHideTimeout fetchingState).1.isShown = false ∧
    (stopHideTimer fetchingState).1.hideTimer = none ∧
    (stopHideTimer fetchingState).1.isShown = fetchingState.isShown :=
  claim_C4_amended sampleCtx fetchingState presetErrorOp
    "Too many columns selected" rfl

/-- C8: at most one fetch and one hide timer are outstanding at any time:
`startCopy` begins with the `stopCopy` teardown (cancelling any outstanding
fetch and timer and clearing the cached text) before starting at most one
fetch and at most one timer, `startFetch` begins by cancelling the previous
fetch before starting at most one, and `startHideTimer` begins by
cancelling the previous timer before starting exactly one. -/
theorem claim_C8 (ctx : Collaborators) (op : CopyOperation)
    (s : HandlerState) :
    let r := startCopySync ctx (some op) s
    let f := startFetchSync ctx op s
    let h := startHideTimer s
    r.2.take (stopCopy s).2.length = (stopCopy s).2 ∧
    (stopCopy s).1.fetchPromise = none ∧
    (stopCopy s).1.hideTimer = none ∧
    (stopCopy s).1.textData = none ∧
    countFetchStarts (stopCopy s).2 = 0 ∧
    countTimerStarts (stopCopy s).2 = 0 ∧
    (s.fetchPromise.isSome = true →
      Effect.fetchCanceled ∈ (stopCopy s).2) ∧
    (s.hideTimer.isSome = true →
      Effect.timerCanceled ∈ (stopCopy s).2) ∧
    countFetchStarts r.2 ≤ 1 ∧
    countTimerStarts r.2 ≤ 1 ∧
    r.1.textData = none ∧
    f.2.take (stopFetch s).2.length = (stopFetch s).2 ∧
    countFetchStarts (stopFetch s).2 = 0 ∧
    (s.fetchPromise.isSome = true →
      Effect.fetchCanceled ∈ (stopFetch s).2) ∧
    countFetchStarts f.2 ≤ 1 ∧
    h.2.take (stopHideTimer s).2.length = (stopHideTimer s).2 ∧
    countTimerStarts (stopHideTimer s).2 = 0 ∧
    (s.hideTimer.isSome = true →
      Effect.timerCanceled ∈ (stopHideTimer s).2) ∧
    countTimerStarts h.2 = 1 := by
  intro r f h
  obtain ⟨ht1, ht2, ht3, ht4⟩ := startCopySync_teardown ctx op s
  obtain ⟨hc1, hc2, hc3, hc4, hc5, hc6, hc7⟩ := stopCopy_spec s
  obtain ⟨hf1, hf2, hf3, hf4⟩ := stopFetch_spec s
  obtain ⟨hh1, hh2, hh3, hh4⟩ := stopHideTimer_spec s
  obtain ⟨hs1, hs2, hs3, hs4⟩ := startFetchSync_spec ctx op s
  obtain ⟨hm1, hm2, hm3, hm4, hm5⟩ := startHideTimer_spec s
  exact ⟨ht1, hc1, hc2, hc3, hc4, hc5, hc6, hc7, ht2, ht3, ht4, hs1, hf2,
    hf4, hs2, hm1, hh3, hh4, hm2⟩

/-- Witness for C8 at a concrete state with a fetch and a timer outstanding
and text cached. -/
theorem claim_C8_witness :
    let r := startCopySync sampleCtx (some smallRangesOp) busyState
    let f := startFetchSync sampleCtx smallRangesOp busyState
    let h := startHideTimer busyState
    r.2.take (stopCopy busyState).2.length = (stopCopy busyState).2 ∧
    (stopCopy busyState).1.fetchPromise = none ∧
    (stopCopy busyState).1.hideTimer = none ∧
    (stopCopy busyState).1.textData = none ∧
    countFetchStarts (stopCopy busyState).2 = 0 ∧
    countTimerStarts (stopCopy busyState).2 = 0 ∧
    (busyState.fetchPromise.isSome = true →
      Effect.fetchCanceled ∈ (stopCopy busyState).2) ∧
    (busyState.hideTimer.isSome = true →
      Effect.timerCanceled ∈ (stopCopy busyState).2) ∧
    countFetchStarts r.2 ≤ 1 ∧
    countTimerStarts r.2 ≤ 1 ∧
    r.1.textData = none ∧
    f.2.take (stopFetch busyState).2.length = (stopFetch busyState).2 ∧
    countFetchStarts (stopFetch busyState).2 = 0 ∧
    (busyState.fetchPromise.isSome = true →
      Effect.fetchCanceled ∈ (stopFetch busyState).2) ∧
    countFetchStarts f.2 ≤ 1 ∧
    h.2.take (stopHideTimer busyState).2.length =
      (stopHideTimer busyState).2 ∧
    countTimerStarts (stopHideTimer busyState).2 = 0 ∧
    (busyState.hideTimer.isSome = true →
      Effect.timerCanceled ∈ (stopHideTimer busyState).2) ∧
    countTimerStarts h.2 = 1 :=
  claim_C8 sampleCtx smallRangesOp busyState

/-- C9: a `KeyHandler` constructed without an order argument has order 5000,
and the base `onDown` consumes no event on any grid. -/
theorem claim_C9 :
    KeyHandler.mkDefault.order = 5000 ∧
    ∀ (k : KeyHandler) (e : GridKeyboardEvent) (g : Grid),
      k.onDown e g = false :=
  ⟨rfl, fun _ _ _ => rfl⟩

/-- C10: the variant discriminators test different fields (`ranges` for the
Ranges variant, `columnIndex` for the Header variant), so an operation
carrying both gets the Ranges threshold check in `startCopy` but the Header
path in `startFetch`. -/
theorem claim_C10 (ctx : Collaborators) (s : HandlerState)
    (op : CopyOperation) (rs : List GridRange) (ci : Int) (t : String)
    (hr : op.ranges = some rs) (hc : op.columnIndex = some ci)
    (he : op.error = none)
    (hhdr : ctx.textForColumnHeader (ctx.getModelIndex ci op.movedColumns)
      op.columnDepth = some t) :
    isCopyRangesOperation op = true ∧ isCopyHeaderOperation op = true ∧
    (∀ o : CopyOperation, isCopyRangesOperation o = o.ranges.isSome ∧
      isCopyHeaderOperation o = o.columnIndex.isSome) ∧
    (GridRange.rowCount rs > NO_PROMPT_THRESHOLD →
      (startCopySync ctx (some op) s).1.copyState =
        CopyState.CONFIRMATION_REQUIRED) ∧
    (GridRange.rowCount rs ≤ NO_PROMPT_THRESHOLD →
      (startCopySync ctx (some op) s).1.copyState =
        CopyState.FETCH_HEADER_IN_PROGRESS ∧
      (startCopySync ctx (some op) s).1.fetchPromise =
        some (FetchRequest.header t)) := by
  obtain ⟨e, cs, bs, sh, rc, td, ht, fp⟩ := s
  by_cases hrc : GridRange.rowCount rs > NO_PROMPT_THRESHOLD <;>
    cases fp <;> cases ht <;>
      simp [startCopySync, stopCopy, stopFetch, stopHideTimer,
        startFetchSync, isCopyRangesOperation, isCopyHeaderOperation, hr, hc,
        he, hrc, hhdr]

/-- Witness for C10 at a concrete operation carrying both variants'
fields. -/
theorem claim_C10_witness :
    isCopyRangesOperation bothOp = true ∧
    isCopyHeaderOperation bothOp = true ∧
    (∀ o : CopyOperation, isCopyRangesOperation o = o.ranges.isSome ∧
      isCopyHeaderOperation o = o.columnIndex.isSome) ∧
    (GridRange.rowCount smallRanges > NO_PROMPT_THRESHOLD →
      (startCopySync sampleCtx (some bothOp) initialState).1.copyState =
        CopyState.CONFIRMATION_REQUIRED) ∧
    (GridRange.rowCount smallRanges ≤ NO_PROMPT_THRESHOLD →
      (startCopySync sampleCtx (some bothOp) initialState).1.copyState =
        CopyState.FETCH_HEADER_IN_PROGRESS ∧
      (startCopySync sampleCtx (some bothOp) initialState).1.fetchPromise =
        some (FetchRequest.header "Column A")) :=
  claim_C10 sampleCtx initialState bothOp smallRanges 2 "Column A"
    rfl rfl rfl rfl

end WebClientUI
